import Mathlib

/-!
Verification development for the CommonAssessmentTool backend
(src/app/models.py, src/app/auth/router.py, src/app/clients/router.py,
src/app/main.py).

The auth and client routers are shallowly embedded: pure request handlers
become Lean functions over an explicit database state, datetimes become
seconds-since-epoch naturals, and HTTP error responses become an
`ApiError` taxonomy. External primitives that the spec places out of
scope (JWT signing, bcrypt hashing, the SQL engine) are modelled
abstractly: a token carries its payload and the key it was signed with,
and password verification is an explicit function argument.
-/

set_option maxHeartbeats 1000000

deriving instance DecidableEq for Except

namespace CommonAssessmentTool

/-! ## Data model (src/app/models.py) -/

/-- `UserRole` enum from models.py lines 15-20: values "admin" and "case_worker". -/
inductive UserRole where
  | admin
  | case_worker
deriving DecidableEq, Repr

/-- `User` ORM model from models.py lines 23-42. -/
structure User where
  id : Nat
  username : String
  email : String
  hashed_password : String
  role : UserRole
deriving DecidableEq, Repr

/-- `Client` ORM model from models.py lines 44-106. Every constrained column is
nullable, so each field is an `Option`; the CheckConstraints are captured by
`Client.validRow` below. -/
structure Client where
  id : Nat
  age : Option Int
  gender : Option Int
  work_experience : Option Int
  canada_workex : Option Int
  dep_num : Option Int
  canada_born : Option Bool
  citizen_status : Option Bool
  level_of_schooling : Option Int
  fluent_english : Option Bool
  reading_english_scale : Option Int
  speaking_english_scale : Option Int
  writing_english_scale : Option Int
  numeracy_scale : Option Int
  computer_scale : Option Int
  transportation_bool : Option Bool
  caregiver_bool : Option Bool
  housing : Option Int
  income_source : Option Int
  felony_bool : Option Bool
  attending_school : Option Bool
  currently_employed : Option Bool
  substance_use : Option Bool
  time_unemployed : Option Int
  need_mental_health_support_bool : Option Bool
deriving DecidableEq, Repr

/-- `ClientCase` ORM model from models.py lines 108-139: composite primary key
(client_id, user_id), seven boolean service flags, success_rate in [0,100]. -/
structure ClientCase where
  client_id : Nat
  user_id : Nat
  employment_assistance : Option Bool
  life_stabilization : Option Bool
  retention_services : Option Bool
  specialized_services : Option Bool
  employment_related_financial_supports : Option Bool
  employer_financial_supports : Option Bool
  enhanced_referrals : Option Bool
  success_rate : Option Int
deriving DecidableEq, Repr

/-- A nullable column satisfies a CheckConstraint when it is NULL or the
predicate holds on its value. -/
def checkOpt (f : Int → Bool) : Option Int → Bool
  | none => true
  | some v => f v

/-- Conjunction of the CheckConstraints on `clients` (models.py lines 78-103). -/
def Client.validRow (c : Client) : Bool :=
  checkOpt (fun v => decide (18 ≤ v)) c.age &&
  checkOpt (fun v => decide (v = 1 ∨ v = 2)) c.gender &&
  checkOpt (fun v => decide (0 ≤ v)) c.work_experience &&
  checkOpt (fun v => decide (0 ≤ v)) c.canada_workex &&
  checkOpt (fun v => decide (0 ≤ v)) c.dep_num &&
  checkOpt (fun v => decide (1 ≤ v ∧ v ≤ 14)) c.level_of_schooling &&
  checkOpt (fun v => decide (0 ≤ v ∧ v ≤ 10)) c.reading_english_scale &&
  checkOpt (fun v => decide (0 ≤ v ∧ v ≤ 10)) c.speaking_english_scale &&
  checkOpt (fun v => decide (0 ≤ v ∧ v ≤ 10)) c.writing_english_scale &&
  checkOpt (fun v => decide (0 ≤ v ∧ v ≤ 10)) c.numeracy_scale &&
  checkOpt (fun v => decide (0 ≤ v ∧ v ≤ 10)) c.computer_scale &&
  checkOpt (fun v => decide (1 ≤ v ∧ v ≤ 10)) c.housing &&
  checkOpt (fun v => decide (1 ≤ v ∧ v ≤ 11)) c.income_source &&
  checkOpt (fun v => decide (0 ≤ v)) c.time_unemployed

/-- Column names of the `clients` table, in declaration order
(models.py lines 77-104). -/
def clientFieldNames : List String :=
  ["id", "age", "gender", "work_experience", "canada_workex", "dep_num",
   "canada_born", "citizen_status", "level_of_schooling", "fluent_english",
   "reading_english_scale", "speaking_english_scale", "writing_english_scale",
   "numeracy_scale", "computer_scale", "transportation_bool", "caregiver_bool",
   "housing", "income_source", "felony_bool", "attending_school",
   "currently_employed", "substance_use", "time_unemployed",
   "need_mental_health_support_bool"]

/-! ## Error taxonomy (spec section 7; HTTPException statuses in the routers) -/

/-- HTTP error classes raised by the routers: 422/400 validation, 401, 403,
404, and 409/400 conflict. -/
inductive ApiError where
  | validationError
  | unauthenticated
  | forbidden
  | notFound
  | conflict
deriving DecidableEq, Repr

/-! ## Auth service (src/app/auth/router.py) -/

/-- `SECRET_KEY` constant, auth/router.py line 26. -/
def SECRET_KEY : String := "your-secret-key-here"

/-- `ACCESS_TOKEN_EXPIRE_MINUTES` constant, auth/router.py line 28. -/
def ACCESS_TOKEN_EXPIRE_MINUTES : Nat := 30

/-- The claims a login token carries: `sub` (optional, absent when the dict
passed to `jwt.encode` has no "sub" key) and `exp` in seconds since epoch. -/
structure TokenPayload where
  sub : Option String
  exp : Nat
deriving DecidableEq, Repr

/-- Abstract model of a JWT produced by `jose.jwt.encode`: the payload together
with the key it was signed with. Signature verification is modelled as key
equality; forging is out of scope, as the spec places the signing primitive
outside the system. -/
structure Token where
  payload : TokenPayload
  key : String
deriving DecidableEq, Repr

/-- Model of `jwt.encode(to_encode, SECRET_KEY, algorithm=ALGORITHM)`. -/
def jwtEncode (payload : TokenPayload) (key : String) : Token :=
  { payload := payload, key := key }

/-- Model of `jwt.decode(token, SECRET_KEY, algorithms=[ALGORITHM])` at time
`now`: fails (raises JWTError) when the signature does not verify or the `exp`
claim is not in the future. -/
def jwtDecode (tok : Token) (key : String) (now : Nat) : Option TokenPayload :=
  if tok.key = key ∧ now < tok.payload.exp then some tok.payload else none

/-- `authenticate_user` (auth/router.py lines 111-126). `verify` stands for
`pwd_context.verify`, the external bcrypt primitive; `db.query(User).filter
(User.username == username).first()` becomes `List.find?` on the user table. -/
def authenticate_user (verify : String → String → Bool) (users : List User)
    (username password : String) : Option User :=
  match users.find? (fun u => u.username == username) with
  | none => none
  | some user => if verify password user.hashed_password then some user else none

/-- The `data` dict passed to `create_access_token`; only the "sub" key is
ever read downstream. -/
structure TokenData where
  sub : Option String
deriving DecidableEq, Repr

/-- `create_access_token` (auth/router.py lines 128-146): expiry is
`now + expires_delta` when a delta is passed and `now + 15 minutes` otherwise.
`expires_delta` is in seconds. -/
def create_access_token (data : TokenData) (expires_delta : Option Nat)
    (now : Nat) : Token :=
  let expire :=
    match expires_delta with
    | some d => now + d
    | none => now + 15 * 60
  jwtEncode { sub := data.sub, exp := expire } SECRET_KEY

/-- `get_current_user` (auth/router.py lines 148-181): decode the token, read
the `sub` claim, look the username up in the user table; every failure is the
single 401 `credentials_exception`. -/
def get_current_user (users : List User) (now : Nat) (token : Token) :
    Except ApiError User :=
  match jwtDecode token SECRET_KEY now with
  | none => .error .unauthenticated
  | some payload =>
    match payload.sub with
    | none => .error .unauthenticated
    | some username =>
      match users.find? (fun u => u.username == username) with
      | none => .error .unauthenticated
      | some user => .ok user

/-- `get_admin_user` (auth/router.py lines 183-201): 403 unless the resolved
user's role is admin; otherwise the user is returned unchanged. -/
def get_admin_user (current_user : User) : Except ApiError User :=
  if current_user.role ≠ UserRole.admin then .error .forbidden
  else .ok current_user

/-- Response shape of `POST /auth/token` (auth/router.py line 232). -/
structure TokenResponse where
  access_token : Token
  token_type : String
deriving DecidableEq, Repr

/-- `login_for_access_token` (auth/router.py lines 204-232): authenticate the
form credentials, else 401; on success sign a token for the user's username
with a 30-minute expiry. -/
def login_for_access_token (verify : String → String → Bool) (users : List User)
    (username password : String) (now : Nat) : Except ApiError TokenResponse :=
  match authenticate_user verify users username password with
  | none => .error .unauthenticated
  | some user =>
    let access_token_expires := ACCESS_TOKEN_EXPIRE_MINUTES * 60
    .ok { access_token :=
            create_access_token { sub := some user.username }
              (some access_token_expires) now,
          token_type := "bearer" }

/-- `oauth2_scheme` (auth/router.py line 32) resolves the Authorization
header: a request with no bearer token is rejected 401 before the handler
runs; otherwise the token is passed to `get_current_user`. -/
def resolve_bearer (users : List User) (now : Nat) (token : Option Token) :
    Except ApiError User :=
  match token with
  | none => .error .unauthenticated
  | some t => get_current_user users now t

/-- Composition `Depends(get_admin_user)` used by the admin-gated client
endpoints: resolve the bearer, then require the admin role. -/
def resolve_admin (users : List User) (now : Nat) (token : Option Token) :
    Except ApiError User :=
  match resolve_bearer users now token with
  | .error e => .error e
  | .ok u => get_admin_user u

/-- A request without a valid bearer token, covering every 401 cause of
get_current_user (auth/router.py 148-181) and the missing-header rejection
of `oauth2_scheme`: no token at all, a token signed with the wrong key, an
expired token, a payload with no `sub` claim, or a `sub` naming no stored
user. -/
def InvalidBearer (users : List User) (now : Nat) (token : Option Token) : Prop :=
  token = none ∨
  ∃ t, token = some t ∧
    (t.key ≠ SECRET_KEY ∨ t.payload.exp ≤ now ∨ t.payload.sub = none ∨
     ∃ uname, t.payload.sub = some uname ∧
       users.find? (fun x => x.username == uname) = none)

/-! ## Database state

The three ORM tables as explicit lists; the SQL engine itself is out of
scope per spec section 1. -/

structure DBState where
  users : List User
  clients : List Client
  cases : List ClientCase
deriving DecidableEq, Repr

/-- Number of ClientCase rows carrying a given composite key. -/
def countPair (cases : List ClientCase) (cid uid : Nat) : Nat :=
  (cases.filter (fun cc => cc.client_id == cid && cc.user_id == uid)).length

/-! ## Client update / create payloads

`ClientUpdate` lives in app/clients/schema.py, which is not under src/. -/

/-- Modelled from the spec: `ClientUpdate` of app/clients/schema.py (imported
by clients/router.py line 16) — a partial-update body in which every Client
field is optional; a supplied field must satisfy the same range declared for
its column in models.py (spec sections 3 and 4.2). -/
structure ClientUpdate where
  age : Option Int := none
  gender : Option Int := none
  work_experience : Option Int := none
  canada_workex : Option Int := none
  dep_num : Option Int := none
  canada_born : Option Bool := none
  citizen_status : Option Bool := none
  level_of_schooling : Option Int := none
  fluent_english : Option Bool := none
  reading_english_scale : Option Int := none
  speaking_english_scale : Option Int := none
  writing_english_scale : Option Int := none
  numeracy_scale : Option Int := none
  computer_scale : Option Int := none
  transportation_bool : Option Bool := none
  caregiver_bool : Option Bool := none
  housing : Option Int := none
  income_source : Option Int := none
  felony_bool : Option Bool := none
  attending_school : Option Bool := none
  currently_employed : Option Bool := none
  substance_use : Option Bool := none
  time_unemployed : Option Int := none
  need_mental_health_support_bool : Option Bool := none
deriving DecidableEq, Repr

/-- Modelled from the spec: the pydantic field validation of a partial client
body — each supplied numeric field must satisfy the range that models.py
declares for its column (spec: "validates only the fields supplied, same
range rules as create"). -/
def ClientUpdate.valid (u : ClientUpdate) : Bool :=
  checkOpt (fun v => decide (18 ≤ v)) u.age &&
  checkOpt (fun v => decide (v = 1 ∨ v = 2)) u.gender &&
  checkOpt (fun v => decide (0 ≤ v)) u.work_experience &&
  checkOpt (fun v => decide (0 ≤ v)) u.canada_workex &&
  checkOpt (fun v => decide (0 ≤ v)) u.dep_num &&
  checkOpt (fun v => decide (1 ≤ v ∧ v ≤ 14)) u.level_of_schooling &&
  checkOpt (fun v => decide (0 ≤ v ∧ v ≤ 10)) u.reading_english_scale &&
  checkOpt (fun v => decide (0 ≤ v ∧ v ≤ 10)) u.speaking_english_scale &&
  checkOpt (fun v => decide (0 ≤ v ∧ v ≤ 10)) u.writing_english_scale &&
  checkOpt (fun v => decide (0 ≤ v ∧ v ≤ 10)) u.numeracy_scale &&
  checkOpt (fun v => decide (0 ≤ v ∧ v ≤ 10)) u.computer_scale &&
  checkOpt (fun v => decide (1 ≤ v ∧ v ≤ 10)) u.housing &&
  checkOpt (fun v => decide (1 ≤ v ∧ v ≤ 11)) u.income_source &&
  checkOpt (fun v => decide (0 ≤ v)) u.time_unemployed

/-- A supplied field overrides the stored one; an absent field keeps it
(pydantic exclude_unset merge). -/
def mergeField {α : Type} (upd cur : Option α) : Option α :=
  match upd with
  | some v => some v
  | none => cur

/-- Modelled from the spec: the merge step of `ClientService.update_client`
("merges into existing row"). -/
def applyClientUpdate (c : Client) (u : ClientUpdate) : Client :=
  { c with
    age := mergeField u.age c.age
    gender := mergeField u.gender c.gender
    work_experience := mergeField u.work_experience c.work_experience
    canada_workex := mergeField u.canada_workex c.canada_workex
    dep_num := mergeField u.dep_num c.dep_num
    canada_born := mergeField u.canada_born c.canada_born
    citizen_status := mergeField u.citizen_status c.citizen_status
    level_of_schooling := mergeField u.level_of_schooling c.level_of_schooling
    fluent_english := mergeField u.fluent_english c.fluent_english
    reading_english_scale := mergeField u.reading_english_scale c.reading_english_scale
    speaking_english_scale := mergeField u.speaking_english_scale c.speaking_english_scale
    writing_english_scale := mergeField u.writing_english_scale c.writing_english_scale
    numeracy_scale := mergeField u.numeracy_scale c.numeracy_scale
    computer_scale := mergeField u.computer_scale c.computer_scale
    transportation_bool := mergeField u.transportation_bool c.transportation_bool
    caregiver_bool := mergeField u.caregiver_bool c.caregiver_bool
    housing := mergeField u.housing c.housing
    income_source := mergeField u.income_source c.income_source
    felony_bool := mergeField u.felony_bool c.felony_bool
    attending_school := mergeField u.attending_school c.attending_school
    currently_employed := mergeField u.currently_employed c.currently_employed
    substance_use := mergeField u.substance_use c.substance_use
    time_unemployed := mergeField u.time_unemployed c.time_unemployed
    need_mental_health_support_bool :=
      mergeField u.need_mental_health_support_bool c.need_mental_health_support_bool }

/-- Modelled from the spec: `ClientService.update_client` of
app/clients/service/client_service.py (called from clients/router.py line
109; the service module is not under src/). Body validation happens first
(pydantic parses the request body before the handler runs); then NotFound if
the id is absent; otherwise the supplied fields are merged into the row. The
pair returned is (state after the call, outcome). -/
def update_client (s : DBState) (client_id : Nat) (u : ClientUpdate) :
    DBState × Except ApiError Client :=
  if u.valid = false then (s, .error .validationError)
  else
    match s.clients.find? (fun c => c.id == client_id) with
    | none => (s, .error .notFound)
    | some c =>
      let c2 := applyClientUpdate c u
      ({ s with clients := s.clients.map (fun x => if x.id == client_id then c2 else x) },
       .ok c2)

/-- Fresh id for an inserted client (autoincrement primary key). -/
def freshClientId (s : DBState) : Nat :=
  s.clients.foldl (fun m c => max m c.id) 0 + 1

/-- Client row built from a full field payload and an assigned id. -/
def buildClient (id : Nat) (u : ClientUpdate) : Client :=
  { id := id, age := u.age, gender := u.gender,
    work_experience := u.work_experience, canada_workex := u.canada_workex,
    dep_num := u.dep_num, canada_born := u.canada_born,
    citizen_status := u.citizen_status, level_of_schooling := u.level_of_schooling,
    fluent_english := u.fluent_english,
    reading_english_scale := u.reading_english_scale,
    speaking_english_scale := u.speaking_english_scale,
    writing_english_scale := u.writing_english_scale,
    numeracy_scale := u.numeracy_scale, computer_scale := u.computer_scale,
    transportation_bool := u.transportation_bool,
    caregiver_bool := u.caregiver_bool, housing := u.housing,
    income_source := u.income_source, felony_bool := u.felony_bool,
    attending_school := u.attending_school,
    currently_employed := u.currently_employed,
    substance_use := u.substance_use, time_unemployed := u.time_unemployed,
    need_mental_health_support_bool := u.need_mental_health_support_bool }

/-- Modelled from the spec: `create_client(fields)` (spec section 4.2; the
spec notes creation is "implied, not shown in routers but required by the
store"). Validates every present field against its range, fails with
ValidationError otherwise, else inserts a new row with an assigned id. -/
def create_client (s : DBState) (u : ClientUpdate) :
    DBState × Except ApiError Client :=
  if u.valid = false then (s, .error .validationError)
  else
    let c := buildClient (freshClientId s) u
    ({ s with clients := s.clients ++ [c] }, .ok c)

/-- All-flags-empty case row linking a client to a case worker. -/
def emptyCase (client_id user_id : Nat) : ClientCase :=
  { client_id := client_id, user_id := user_id,
    employment_assistance := none, life_stabilization := none,
    retention_services := none, specialized_services := none,
    employment_related_financial_supports := none,
    employer_financial_supports := none, enhanced_referrals := none,
    success_rate := none }

/-- Modelled from the spec: `ClientService.create_case_assignment` (called
from clients/router.py line 130; the service module is not under src/).
NotFound when either referenced id does not exist, Conflict when a case row
for the (client_id, user_id) pair already exists — the composite primary key
of models.py lines 126-127 — otherwise an all-fields-empty row is inserted. -/
def create_case_assignment (s : DBState) (client_id case_worker_id : Nat) :
    DBState × Except ApiError ClientCase :=
  match s.clients.find? (fun c => c.id == client_id) with
  | none => (s, .error .notFound)
  | some _ =>
    match s.users.find? (fun u => u.id == case_worker_id) with
    | none => (s, .error .notFound)
    | some _ =>
      if s.cases.any (fun cc => cc.client_id == client_id && cc.user_id == case_worker_id) then
        (s, .error .conflict)
      else
        let cc := emptyCase client_id case_worker_id
        ({ s with cases := s.cases ++ [cc] }, .ok cc)

/-- Modelled from the spec: `ClientService.delete_client` (called from
clients/router.py line 139). NotFound when the id is absent, otherwise the
client row and every ClientCase row referencing it are removed. -/
def delete_client (s : DBState) (client_id : Nat) :
    DBState × Except ApiError Unit :=
  match s.clients.find? (fun c => c.id == client_id) with
  | none => (s, .error .notFound)
  | some _ =>
    ({ s with
        clients := s.clients.filter (fun c => c.id != client_id),
        cases := s.cases.filter (fun cc => cc.client_id != client_id) },
     .ok ())

/-- Modelled from the spec: `ClientService.get_client_services` (called from
clients/router.py line 81). NotFound when the client does not exist,
otherwise every case row for that client. -/
def get_client_services (s : DBState) (client_id : Nat) :
    Except ApiError (List ClientCase) :=
  match s.clients.find? (fun c => c.id == client_id) with
  | none => .error .notFound
  | some _ => .ok (s.cases.filter (fun cc => cc.client_id == client_id))

/-- A case row's success_rate is present and at least `min_rate`. -/
def rateAtLeast (min_rate : Int) : Option Int → Bool
  | some r => decide (min_rate ≤ r)
  | none => false

/-- Modelled from the spec: `ClientService.get_clients_by_success_rate`
(called from clients/router.py line 90) — "returns clients having at least
one ClientCase with success_rate >= min_rate". -/
def get_clients_by_success_rate (s : DBState) (min_rate : Int) : List Client :=
  s.clients.filter (fun c =>
    s.cases.any (fun cc => cc.client_id == c.id && rateAtLeast min_rate cc.success_rate))

/-- Modelled from the spec: `ClientService.get_clients` (called from
clients/router.py line 31) — a page of the client table plus the total
count. -/
def get_clients (s : DBState) (skip limit : Nat) : List Client × Nat :=
  ((s.clients.drop skip).take limit, s.clients.length)

/-- Modelled from the spec: `ClientService.get_client` (called from
clients/router.py line 39) — the row by id or NotFound. -/
def get_client (s : DBState) (client_id : Nat) : Except ApiError Client :=
  match s.clients.find? (fun c => c.id == client_id) with
  | none => .error .notFound
  | some c => .ok c

/-- Modelled from the spec: `ClientService.get_clients_by_case_worker`
(called from clients/router.py line 99) — clients having at least one case
assigned to the given user id; empty list when there are none. -/
def get_clients_by_case_worker (s : DBState) (case_worker_id : Nat) : List Client :=
  s.clients.filter (fun c =>
    s.cases.any (fun cc => cc.client_id == c.id && cc.user_id == case_worker_id))

/-! ## Search criteria (clients/router.py lines 145-169) -/

/-- `ClientSearchCriteria` pydantic model, clients/router.py lines 145-169:
the fixed set of optional filter fields. Note the names that differ from the
Client columns: `employment_status` (vs `currently_employed`),
`education_level` (vs `level_of_schooling`), `age_min` (a lower bound on
`age`). -/
structure ClientSearchCriteria where
  employment_status : Option Bool := none
  education_level : Option Int := none
  age_min : Option Int := none
  gender : Option Int := none
  work_experience : Option Int := none
  canada_workex : Option Int := none
  dep_num : Option Int := none
  canada_born : Option Bool := none
  citizen_status : Option Bool := none
  fluent_english : Option Bool := none
  reading_english_scale : Option Int := none
  speaking_english_scale : Option Int := none
  writing_english_scale : Option Int := none
  numeracy_scale : Option Int := none
  computer_scale : Option Int := none
  transportation_bool : Option Bool := none
  caregiver_bool : Option Bool := none
  housing : Option Int := none
  income_source : Option Int := none
  felony_bool : Option Bool := none
  attending_school : Option Bool := none
  substance_use : Option Bool := none
  time_unemployed : Option Int := none
  need_mental_health_support_bool : Option Bool := none
deriving DecidableEq, Repr

/-- Field names of `ClientSearchCriteria`, in declaration order
(clients/router.py lines 146-169). -/
def clientSearchCriteriaFieldNames : List String :=
  ["employment_status", "education_level", "age_min", "gender",
   "work_experience", "canada_workex", "dep_num", "canada_born",
   "citizen_status", "fluent_english", "reading_english_scale",
   "speaking_english_scale", "writing_english_scale", "numeracy_scale",
   "computer_scale", "transportation_bool", "caregiver_bool", "housing",
   "income_source", "felony_bool", "attending_school", "substance_use",
   "time_unemployed", "need_mental_health_support_bool"]

/-- An absent criterion passes; a supplied one requires the stored field to
equal it (SQL equality filters out NULL columns). -/
def matchEq {α : Type} [BEq α] (crit : Option α) (field : Option α) : Bool :=
  match crit with
  | none => true
  | some v => field == some v

/-- An absent threshold passes; a supplied one requires the stored field to
be present and at least the threshold. -/
def matchGe (crit : Option Int) (field : Option Int) : Bool :=
  match crit with
  | none => true
  | some v =>
    match field with
    | some a => decide (v ≤ a)
    | none => false

/-- Modelled from the spec: the predicate `ClientService.get_clients_by_criteria`
applies per client — "only fields explicitly supplied are applied as equality
(or threshold, for scales) filters; absent fields impose no constraint"
(spec section 4.2), with the criteria fields of clients/router.py lines
146-169 mapped onto their Client columns. The `age_min` bound and the five
scale fields are lower-bound threshold filters; every other supplied field
is an equality filter. -/
def matchesCriteria (cr : ClientSearchCriteria) (c : Client) : Bool :=
  matchEq cr.employment_status c.currently_employed &&
  matchEq cr.education_level c.level_of_schooling &&
  matchGe cr.age_min c.age &&
  matchEq cr.gender c.gender &&
  matchEq cr.work_experience c.work_experience &&
  matchEq cr.canada_workex c.canada_workex &&
  matchEq cr.dep_num c.dep_num &&
  matchEq cr.canada_born c.canada_born &&
  matchEq cr.citizen_status c.citizen_status &&
  matchEq cr.fluent_english c.fluent_english &&
  matchGe cr.reading_english_scale c.reading_english_scale &&
  matchGe cr.speaking_english_scale c.speaking_english_scale &&
  matchGe cr.writing_english_scale c.writing_english_scale &&
  matchGe cr.numeracy_scale c.numeracy_scale &&
  matchGe cr.computer_scale c.computer_scale &&
  matchEq cr.transportation_bool c.transportation_bool &&
  matchEq cr.caregiver_bool c.caregiver_bool &&
  matchEq cr.housing c.housing &&
  matchEq cr.income_source c.income_source &&
  matchEq cr.felony_bool c.felony_bool &&
  matchEq cr.attending_school c.attending_school &&
  matchEq cr.substance_use c.substance_use &&
  matchEq cr.time_unemployed c.time_unemployed &&
  matchEq cr.need_mental_health_support_bool c.need_mental_health_support_bool

/-- Modelled from the spec: `ClientService.get_clients_by_criteria` (called
from clients/router.py line 48) — the clients satisfying every supplied
constraint. -/
def get_clients_by_criteria (s : DBState) (cr : ClientSearchCriteria) : List Client :=
  s.clients.filter (matchesCriteria cr)

/-- Criteria object with no field supplied. -/
def emptyCriteria : ClientSearchCriteria := {}

/-! ## Service-flag search (clients/router.py lines 50-72) -/

/-- The seven optional boolean flags of `GET /clients/search/by-services`
(clients/router.py lines 52-58). -/
structure ServiceFlags where
  employment_assistance : Option Bool := none
  life_stabilization : Option Bool := none
  retention_services : Option Bool := none
  specialized_services : Option Bool := none
  employment_related_financial_supports : Option Bool := none
  employer_financial_supports : Option Bool := none
  enhanced_referrals : Option Bool := none
deriving DecidableEq, Repr

/-- A case row satisfies every supplied flag constraint. -/
def caseMatchesFlags (fl : ServiceFlags) (cc : ClientCase) : Bool :=
  matchEq fl.employment_assistance cc.employment_assistance &&
  matchEq fl.life_stabilization cc.life_stabilization &&
  matchEq fl.retention_services cc.retention_services &&
  matchEq fl.specialized_services cc.specialized_services &&
  matchEq fl.employment_related_financial_supports cc.employment_related_financial_supports &&
  matchEq fl.employer_financial_supports cc.employer_financial_supports &&
  matchEq fl.enhanced_referrals cc.enhanced_referrals

/-- Modelled from the spec: `ClientService.get_clients_by_services` (called
from clients/router.py line 63) — "a client matches if it has at least one
ClientCase row satisfying all supplied flag constraints". -/
def get_clients_by_services (s : DBState) (fl : ServiceFlags) : List Client :=
  s.clients.filter (fun c =>
    s.cases.any (fun cc => cc.client_id == c.id && caseMatchesFlags fl cc))

/-! ## Route handlers (src/app/clients/router.py)

Each handler is modelled with the dependency list its source declares: a
`token : Option Token` argument stands for the request's Authorization
header, consulted only when the handler has a `Depends(get_current_user)` or
`Depends(get_admin_user)` parameter. -/

/-- `GET /clients/` (clients/router.py lines 24-31). The handler's
dependencies are only the `skip`/`limit` query params and the db session —
no auth dependency, so the bearer token is never consulted. `limit` is
validated to [1,150] by `Query(..., ge=1, le=150)`. -/
def handle_get_clients (s : DBState) (_token : Option Token)
    (skip limit : Nat) : Except ApiError (List Client × Nat) :=
  if limit < 1 ∨ 150 < limit then .error .validationError
  else .ok (get_clients s skip limit)

/-- `GET /clients/{client_id}` (clients/router.py lines 33-39): no auth
dependency; the bearer token is never consulted. -/
def handle_get_client (s : DBState) (_token : Option Token)
    (client_id : Nat) : Except ApiError Client :=
  get_client s client_id

/-- `GET /clients/search/by-criteria` (clients/router.py lines 41-48):
`Depends(get_admin_user)`. -/
def handle_get_clients_by_criteria (s : DBState) (now : Nat)
    (token : Option Token) (cr : ClientSearchCriteria) :
    Except ApiError (List Client) :=
  match resolve_admin s.users now token with
  | .error e => .error e
  | .ok _ => .ok (get_clients_by_criteria s cr)

/-- `GET /clients/search/by-services` (clients/router.py lines 50-72):
`Depends(get_admin_user)`. -/
def handle_get_clients_by_services (s : DBState) (now : Nat)
    (token : Option Token) (fl : ServiceFlags) :
    Except ApiError (List Client) :=
  match resolve_admin s.users now token with
  | .error e => .error e
  | .ok _ => .ok (get_clients_by_services s fl)

/-- `GET /clients/{client_id}/services` (clients/router.py lines 74-81):
`Depends(get_admin_user)`. -/
def handle_get_client_services (s : DBState) (now : Nat)
    (token : Option Token) (client_id : Nat) :
    Except ApiError (List ClientCase) :=
  match resolve_admin s.users now token with
  | .error e => .error e
  | .ok _ => get_client_services s client_id

/-- `GET /clients/search/success-rate` (clients/router.py lines 83-90):
`Depends(get_admin_user)`; `min_rate` has `Query(70, ge=0, le=100)` — the
default is 70 when the parameter is absent, and a supplied value outside
[0,100] is rejected at request validation. -/
def handle_get_clients_by_success_rate (s : DBState) (now : Nat)
    (token : Option Token) (min_rate : Option Int) :
    Except ApiError (List Client) :=
  match resolve_admin s.users now token with
  | .error e => .error e
  | .ok _ =>
    let mr := match min_rate with | some v => v | none => 70
    if mr < 0 ∨ 100 < mr then .error .validationError
    else .ok (get_clients_by_success_rate s mr)

/-- `GET /clients/case-worker/{case_worker_id}` (clients/router.py lines
92-99): `Depends(get_current_user)` — any authenticated user. -/
def handle_get_clients_by_case_worker (s : DBState) (now : Nat)
    (token : Option Token) (case_worker_id : Nat) :
    Except ApiError (List Client) :=
  match resolve_bearer s.users now token with
  | .error e => .error e
  | .ok _ => .ok (get_clients_by_case_worker s case_worker_id)

/-- `PUT /clients/{client_id}` (clients/router.py lines 101-109):
`Depends(get_admin_user)`, then the service update. -/
def handle_update_client (s : DBState) (now : Nat) (token : Option Token)
    (client_id : Nat) (u : ClientUpdate) : DBState × Except ApiError Client :=
  match resolve_admin s.users now token with
  | .error e => (s, .error e)
  | .ok _ => update_client s client_id u

/-- `POST /clients/{client_id}/case-assignment` (clients/router.py lines
122-130): `Depends(get_admin_user)`, then the service call. -/
def handle_create_case_assignment (s : DBState) (now : Nat)
    (token : Option Token) (client_id case_worker_id : Nat) :
    DBState × Except ApiError ClientCase :=
  match resolve_admin s.users now token with
  | .error e => (s, .error e)
  | .ok _ => create_case_assignment s client_id case_worker_id

/-- `DELETE /clients/{client_id}` (clients/router.py lines 132-140):
`Depends(get_admin_user)`, then the service call. -/
def handle_delete_client (s : DBState) (now : Nat) (token : Option Token)
    (client_id : Nat) : DBState × Except ApiError Unit :=
  match resolve_admin s.users now token with
  | .error e => (s, .error e)
  | .ok _ => delete_client s client_id

/-! ## Mounted HTTP surface (src/app/main.py) -/

/-- A routing-table entry: HTTP method and path template. -/
structure Route where
  method : String
  path : String
deriving DecidableEq, Repr

/-- The routes the clients router registers (clients/router.py, prefix
"/clients" from line 22). -/
def clients_router_routes : List Route :=
  [⟨"GET", "/clients/"⟩,
   ⟨"GET", "/clients/{client_id}"⟩,
   ⟨"GET", "/clients/search/by-criteria"⟩,
   ⟨"GET", "/clients/search/by-services"⟩,
   ⟨"GET", "/clients/{client_id}/services"⟩,
   ⟨"GET", "/clients/search/success-rate"⟩,
   ⟨"GET", "/clients/case-worker/{case_worker_id}"⟩,
   ⟨"PUT", "/clients/{client_id}"⟩,
   ⟨"PUT", "/clients/{client_id}/services/{user_id}"⟩,
   ⟨"POST", "/clients/{client_id}/case-assignment"⟩,
   ⟨"DELETE", "/clients/{client_id}"⟩]

/-- The routes the auth router registers (auth/router.py, prefix "/auth"
from line 23). -/
def auth_router_routes : List Route :=
  [⟨"POST", "/auth/token"⟩,
   ⟨"POST", "/auth/users"⟩]

/-- The application's routing table, from main.py: the only
`include_router` call (line 13) mounts the clients router; the auth router
is never included. -/
def app_routes : List Route := clients_router_routes

/-! ## Concrete fixtures used by witnesses -/

/-- A concrete stand-in for the external bcrypt verifier: the fixture users
below store the plain password as `hashed_password`. -/
def verifyPlain : String → String → Bool := fun pw stored => pw == stored

/-- Fixture admin user (spec section 8 scenario). -/
def alice : User :=
  { id := 1, username := "alice", email := "alice@example.com",
    hashed_password := "secret123!", role := UserRole.admin }

/-- Fixture client, age 25, everything else absent. -/
def c0 : Client := buildClient 1 { age := some 25 }

/-- Fixture state: one admin user, one client, no cases. -/
def s0 : DBState := { users := [alice], clients := [c0], cases := [] }

/-- Fixture case row for (client 1, user 1) with success_rate 80. -/
def case80 : ClientCase := { emptyCase 1 1 with success_rate := some 80 }

/-- Fixture state with one case row. -/
def s1c : DBState := { users := [alice], clients := [c0], cases := [case80] }

/-- Fixture token for alice, expiring at t = 1000. -/
def tokAlice : Token :=
  { payload := { sub := some "alice", exp := 1000 }, key := SECRET_KEY }

/-- Fixture token for alice that expired at t = 3. -/
def tokExpired : Token :=
  { payload := { sub := some "alice", exp := 3 }, key := SECRET_KEY }

/-! ## Helper lemmas -/

theorem find?_username_spec {users : List User} {uname : String} {u : User}
    (h : users.find? (fun x => x.username == uname) = some u) :
    u.username = uname := by
  have hp := List.find?_some h
  simpa using hp

theorem authenticate_user_spec {verify : String → String → Bool}
    {users : List User} {uname p : String} {u : User}
    (h : authenticate_user verify users uname p = some u) :
    users.find? (fun x => x.username == uname) = some u ∧ u.username = uname := by
  unfold authenticate_user at h
  cases hf : users.find? (fun x => x.username == uname) with
  | none => rw [hf] at h; cases h
  | some v =>
    rw [hf] at h
    by_cases hv : verify p v.hashed_password = true
    · simp only [hv, if_true] at h
      cases h
      exact ⟨rfl, find?_username_spec hf⟩
    · simp only [hv] at h
      simp at h

theorem get_current_user_fresh (users : List User) (uname : String) (u : User)
    (now d t : Nat)
    (hfind : users.find? (fun x => x.username == uname) = some u)
    (ht : t < now + d) :
    get_current_user users t
      (create_access_token { sub := some uname } (some d) now) = .ok u := by
  simp [get_current_user, create_access_token, jwtEncode, jwtDecode, ht, hfind]

/-! ## Claim theorems -/

/-- Claim C2: for every authenticated identity, the admin gate
`get_admin_user` fails with Forbidden exactly when the identity's role is
not admin, and returns the identity unchanged when the role is admin. -/
theorem C2_admin_gate (u : User) :
    (get_admin_user u = .error .forbidden ↔ u.role ≠ UserRole.admin) ∧
    (u.role = UserRole.admin → get_admin_user u = .ok u) := by
  refine ⟨⟨?_, ?_⟩, ?_⟩
  · intro h hrole
    simp [get_admin_user, hrole] at h
  · intro h
    simp [get_admin_user, h]
  · intro h
    simp [get_admin_user, h]

/-- Witness for C2 at the fixture admin user. -/
theorem C2_admin_gate_witness : get_admin_user alice = .ok alice :=
  (C2_admin_gate alice).2 rfl

/-- Claim C3 (evaluation at the failing input): the auth router registers
POST /auth/token, but main.py mounts only the clients router, so the
application's routing table has no entry for that path — a request to it
cannot be dispatched. -/
theorem C3_auth_token_not_mounted :
    Route.mk "POST" "/auth/token" ∈ auth_router_routes ∧
    Route.mk "POST" "/auth/token" ∉ app_routes := by
  decide

/-- Claim C9: `create_access_token` falls back to a 15-minute expiry when no
delta is passed, and the login endpoint always signs with a 30-minute
expiry, so on the login path the token expiry is now + 30 minutes. -/
theorem C9_token_expiry_defaults :
    (∀ (data : TokenData) (now : Nat),
       (create_access_token data none now).payload.exp = now + 15 * 60) ∧
    (∀ (verify : String → String → Bool) (users : List User)
       (uname p : String) (now : Nat) (tr : TokenResponse),
       login_for_access_token verify users uname p now = .ok tr →
       tr.access_token.payload.exp = now + 30 * 60) := by
  constructor
  · intro data now
    rfl
  · intro verify users uname p now tr h
    unfold login_for_access_token at h
    cases hauth : authenticate_user verify users uname p with
    | none => rw [hauth] at h; cases h
    | some u =>
      rw [hauth] at h
      simp only [Except.ok.injEq] at h
      rw [← h]
      rfl

/-- Witness for C9: the 15-minute fallback and the 30-minute login path at
concrete inputs. -/
theorem C9_token_expiry_defaults_witness :
    (create_access_token { sub := some "alice" } none 0).payload.exp = 0 + 15 * 60 ∧
    (TokenResponse.mk
        (Token.mk (TokenPayload.mk (some "alice") (5 + 30 * 60)) SECRET_KEY)
        "bearer").access_token.payload.exp = 5 + 30 * 60 :=
  ⟨C9_token_expiry_defaults.1 { sub := some "alice" } 0,
   C9_token_expiry_defaults.2 verifyPlain [alice] "alice" "secret123!" 5 _ (by decide)⟩

/-- Claim C4 (counterexample): `GET /clients/` and `GET /clients/{id}`
declare no auth dependency, so a request with no bearer token succeeds and
returns client data instead of failing 401. -/
theorem C4_unauthenticated_read_counterexample :
    handle_get_clients s0 none 0 50 = .ok ([c0], 1) ∧
    handle_get_client s0 none 1 = .ok c0 ∧
    handle_get_clients s0 none 0 50 ≠ .error .unauthenticated := by
  decide

theorem resolve_bearer_invalid {users : List User} {now : Nat}
    {token : Option Token} (h : InvalidBearer users now token) :
    resolve_bearer users now token = .error .unauthenticated := by
  rcases h with rfl | ⟨t, rfl, hk | he | hs | ⟨uname, hsub, hfind⟩⟩
  · rfl
  · simp [resolve_bearer, get_current_user, jwtDecode, hk]
  · have hnl : ¬ now < t.payload.exp := Nat.not_lt.mpr he
    simp [resolve_bearer, get_current_user, jwtDecode, hnl]
  · by_cases hcond : t.key = SECRET_KEY ∧ now < t.payload.exp
    · simp [resolve_bearer, get_current_user, jwtDecode, hcond, hs]
    · simp [resolve_bearer, get_current_user, jwtDecode, hcond]
  · by_cases hcond : t.key = SECRET_KEY ∧ now < t.payload.exp
    · simp [resolve_bearer, get_current_user, jwtDecode, hcond, hsub, hfind]
    · simp [resolve_bearer, get_current_user, jwtDecode, hcond]

/-- Claim C4 (amended): every read endpoint other than `GET /clients/` and
`GET /clients/{id}` — the criteria, services, success-rate searches, the
per-client services listing, and the case-worker listing — rejects a request
without a valid bearer token (whether the token is missing, wrongly signed,
expired, subject-less, or names an unknown user) with Unauthenticated (401). -/
theorem C4_reads_require_auth (s : DBState) (now : Nat) (token : Option Token)
    (hbad : InvalidBearer s.users now token) :
    (∀ cr, handle_get_clients_by_criteria s now token cr = .error .unauthenticated) ∧
    (∀ fl, handle_get_clients_by_services s now token fl = .error .unauthenticated) ∧
    (∀ cid, handle_get_client_services s now token cid = .error .unauthenticated) ∧
    (∀ mr, handle_get_clients_by_success_rate s now token mr = .error .unauthenticated) ∧
    (∀ wid, handle_get_clients_by_case_worker s now token wid = .error .unauthenticated) := by
  have hb : resolve_bearer s.users now token = .error .unauthenticated :=
    resolve_bearer_invalid hbad
  have ha : resolve_admin s.users now token = .error .unauthenticated := by
    unfold resolve_admin
    rw [hb]
  refine ⟨fun cr => ?_, fun fl => ?_, fun cid => ?_, fun mr => ?_, fun wid => ?_⟩
  · unfold handle_get_clients_by_criteria
    rw [ha]
  · unfold handle_get_clients_by_services
    rw [ha]
  · unfold handle_get_client_services
    rw [ha]
  · unfold handle_get_clients_by_success_rate
    rw [ha]
  · unfold handle_get_clients_by_case_worker
    rw [hb]

/-- Witness for C4: a tokenless case-worker listing and a criteria search
carrying an expired token, both rejected 401 on the fixture state. -/
theorem C4_reads_require_auth_witness :
    handle_get_clients_by_case_worker s0 0 none 1 = .error .unauthenticated ∧
    handle_get_clients_by_criteria s0 5 (some tokExpired) emptyCriteria =
      .error .unauthenticated :=
  ⟨(C4_reads_require_auth s0 0 none (Or.inl rfl)).2.2.2.2 1,
   (C4_reads_require_auth s0 5 (some tokExpired)
      (Or.inr ⟨tokExpired, rfl, Or.inr (Or.inl (by decide))⟩)).1 emptyCriteria⟩

/-- Claim C1: for every stored user authenticated with the correct password,
resolving the token issued by the login endpoint returns an identity with
the same username, provided the token has not expired (checked before the
30-minute expiry the login path signs). -/
theorem C1_authentication_roundtrip
    (verify : String → String → Bool) (users : List User)
    (uname p : String) (u : User) (now elapsed : Nat)
    (hauth : authenticate_user verify users uname p = some u)
    (hfresh : elapsed < ACCESS_TOKEN_EXPIRE_MINUTES * 60) :
    ∃ tr : TokenResponse,
      login_for_access_token verify users uname p now = .ok tr ∧
      ∃ w : User,
        get_current_user users (now + elapsed) tr.access_token = .ok w ∧
        w.username = u.username := by
  obtain ⟨hfind, huname⟩ := authenticate_user_spec hauth
  refine ⟨{ access_token := create_access_token { sub := some u.username }
              (some (ACCESS_TOKEN_EXPIRE_MINUTES * 60)) now,
            token_type := "bearer" }, ?_, ?_⟩
  · unfold login_for_access_token
    rw [hauth]
  · refine ⟨u, ?_, rfl⟩
    have hfind2 : users.find? (fun x => x.username == u.username) = some u := by
      rw [huname]; exact hfind
    exact get_current_user_fresh users u.username u now
      (ACCESS_TOKEN_EXPIRE_MINUTES * 60) (now + elapsed) hfind2
      (by omega)

/-- Witness for C1: the round-trip at the fixture user and password, issued
at t = 0 and resolved at t = 0. -/
theorem C1_authentication_roundtrip_witness :
    ∃ tr : TokenResponse,
      login_for_access_token verifyPlain [alice] "alice" "secret123!" 0 = .ok tr ∧
      ∃ w : User,
        get_current_user [alice] (0 + 0) tr.access_token = .ok w ∧
        w.username = alice.username :=
  C1_authentication_roundtrip verifyPlain [alice] "alice" "secret123!" alice 0 0
    (by decide) (by decide)

theorem checkOpt_mergeField (f : Int → Bool) (upd cur : Option Int)
    (h1 : checkOpt f upd = true) (h2 : checkOpt f cur = true) :
    checkOpt f (mergeField upd cur) = true := by
  cases upd with
  | none => simpa [mergeField] using h2
  | some v => simpa [mergeField] using h1

theorem validRow_applyUpdate (c : Client) (u : ClientUpdate)
    (hc : c.validRow = true) (hu : u.valid = true) :
    (applyClientUpdate c u).validRow = true := by
  unfold Client.validRow at hc ⊢
  unfold ClientUpdate.valid at hu
  dsimp only [applyClientUpdate]
  simp only [Bool.and_eq_true, and_assoc] at hc hu ⊢
  obtain ⟨hc1, hc2, hc3, hc4, hc5, hc6, hc7, hc8, hc9, hc10, hc11, hc12, hc13, hc14⟩ := hc
  obtain ⟨hu1, hu2, hu3, hu4, hu5, hu6, hu7, hu8, hu9, hu10, hu11, hu12, hu13, hu14⟩ := hu
  exact ⟨checkOpt_mergeField _ _ _ hu1 hc1, checkOpt_mergeField _ _ _ hu2 hc2,
         checkOpt_mergeField _ _ _ hu3 hc3, checkOpt_mergeField _ _ _ hu4 hc4,
         checkOpt_mergeField _ _ _ hu5 hc5, checkOpt_mergeField _ _ _ hu6 hc6,
         checkOpt_mergeField _ _ _ hu7 hc7, checkOpt_mergeField _ _ _ hu8 hc8,
         checkOpt_mergeField _ _ _ hu9 hc9, checkOpt_mergeField _ _ _ hu10 hc10,
         checkOpt_mergeField _ _ _ hu11 hc11, checkOpt_mergeField _ _ _ hu12 hc12,
         checkOpt_mergeField _ _ _ hu13 hc13, checkOpt_mergeField _ _ _ hu14 hc14⟩

theorem validRow_buildClient (id : Nat) (u : ClientUpdate)
    (hu : u.valid = true) : (buildClient id u).validRow = true :=
  hu

/-- Claim C5: out-of-range numeric values are rejected with ValidationError
and leave the state unchanged, for update and create alike; consequently
validity of every stored client row is preserved by both writes. -/
theorem C5_range_validation :
    (∀ (s : DBState) (id : Nat) (u : ClientUpdate), u.valid = false →
       update_client s id u = (s, .error .validationError)) ∧
    (∀ (s : DBState) (u : ClientUpdate), u.valid = false →
       create_client s u = (s, .error .validationError)) ∧
    (∀ (s : DBState) (id : Nat) (u : ClientUpdate),
       (∀ c ∈ s.clients, c.validRow = true) →
       ∀ c ∈ (update_client s id u).1.clients, c.validRow = true) ∧
    (∀ (s : DBState) (u : ClientUpdate),
       (∀ c ∈ s.clients, c.validRow = true) →
       ∀ c ∈ (create_client s u).1.clients, c.validRow = true) := by
  refine ⟨?_, ?_, ?_, ?_⟩
  · intro s id u hv
    simp [update_client, hv]
  · intro s u hv
    simp [create_client, hv]
  · intro s id u hall c hc
    by_cases hv : u.valid = true
    · simp only [update_client, hv, Bool.true_eq_false, if_false] at hc
      cases hf : s.clients.find? (fun x => x.id == id) with
      | none => rw [hf] at hc; exact hall c hc
      | some c1 =>
        rw [hf] at hc
        simp only [List.mem_map] at hc
        obtain ⟨x, hx, hxc⟩ := hc
        by_cases hid : (x.id == id) = true
        · rw [if_pos hid] at hxc
          rw [← hxc]
          exact validRow_applyUpdate c1 u
            (hall c1 (List.mem_of_find?_eq_some hf)) hv
        · rw [if_neg hid] at hxc
          rw [← hxc]
          exact hall x hx
    · have hv2 : u.valid = false := by revert hv; cases u.valid <;> simp
      simp only [update_client, hv2, if_true] at hc
      exact hall c hc
  · intro s u hall c hc
    by_cases hv : u.valid = true
    · simp only [create_client, hv, Bool.true_eq_false, if_false] at hc
      rw [List.mem_append] at hc
      cases hc with
      | inl h => exact hall c h
      | inr h =>
        rw [List.mem_singleton] at h
        rw [h]
        exact validRow_buildClient (freshClientId s) u hv
    · have hv2 : u.valid = false := by revert hv; cases u.valid <;> simp
      simp only [create_client, hv2, if_true] at hc
      exact hall c hc

/-- Witness for C5: age 17 is rejected by both writes on the fixture state,
and a valid update keeps every stored row valid. -/
theorem C5_range_validation_witness :
    update_client s0 5 { age := some 17 } = (s0, .error .validationError) ∧
    create_client s0 { age := some 17 } = (s0, .error .validationError) ∧
    (∀ c ∈ (update_client s0 1 { age := some 25 }).1.clients,
       c.validRow = true) :=
  ⟨C5_range_validation.1 s0 5 { age := some 17 } (by decide),
   C5_range_validation.2.1 s0 { age := some 17 } (by decide),
   C5_range_validation.2.2.1 s0 1 { age := some 25 } (by decide)⟩

theorem countPair_zero_iff_any_false (cases : List ClientCase) (cid uid : Nat) :
    countPair cases cid uid = 0 ↔
    cases.any (fun cc => cc.client_id == cid && cc.user_id == uid) = false := by
  unfold countPair
  rw [List.length_eq_zero, List.filter_eq_nil_iff, List.any_eq_false]

theorem countPair_append_match (cases : List ClientCase) (cid uid : Nat) :
    countPair (cases ++ [emptyCase cid uid]) cid uid =
      countPair cases cid uid + 1 := by
  unfold countPair
  rw [List.filter_append, List.length_append]
  simp [emptyCase]

/-- Claim C6: on a state where the client and the case worker both exist and
no case row for the pair is present, calling create_case_assignment twice
yields one success then one Conflict, leaving exactly one row for the pair;
a missing client or user id yields NotFound with the state unchanged; and
the at-most-one-row-per-pair invariant is preserved by the operation. -/
theorem C6_case_assignment_conflict (s : DBState) (cid uid : Nat) :
    ((s.clients.find? (fun c => c.id == cid)).isSome = true →
     (s.users.find? (fun u => u.id == uid)).isSome = true →
     countPair s.cases cid uid = 0 →
     ∃ cc s1 s2,
       create_case_assignment s cid uid = (s1, .ok cc) ∧
       create_case_assignment s1 cid uid = (s2, .error .conflict) ∧
       countPair s2.cases cid uid = 1) ∧
    ((s.clients.find? (fun c => c.id == cid)).isSome = false ∨
     (s.users.find? (fun u => u.id == uid)).isSome = false →
     create_case_assignment s cid uid = (s, .error .notFound)) ∧
    (countPair s.cases cid uid ≤ 1 →
     countPair ((create_case_assignment s cid uid).1).cases cid uid ≤ 1) := by
  refine ⟨?_, ?_, ?_⟩
  · intro hc hu hzero
    obtain ⟨c1, hc1⟩ := Option.isSome_iff_exists.mp hc
    obtain ⟨u1, hu1⟩ := Option.isSome_iff_exists.mp hu
    have hany : s.cases.any
        (fun cc => cc.client_id == cid && cc.user_id == uid) = false :=
      (countPair_zero_iff_any_false s.cases cid uid).mp hzero
    have hstep1 : create_case_assignment s cid uid =
        ({ s with cases := s.cases ++ [emptyCase cid uid] },
         .ok (emptyCase cid uid)) := by
      unfold create_case_assignment
      rw [hc1, hu1, hany]
      simp
    have hany2 : (s.cases ++ [emptyCase cid uid]).any
        (fun cc => cc.client_id == cid && cc.user_id == uid) = true := by
      rw [List.any_append]
      simp [emptyCase]
    have hstep2 : create_case_assignment
        ({ s with cases := s.cases ++ [emptyCase cid uid] }) cid uid =
        ({ s with cases := s.cases ++ [emptyCase cid uid] },
         .error .conflict) := by
      unfold create_case_assignment
      rw [hc1, hu1, hany2]
      simp
    refine ⟨emptyCase cid uid, _, _, hstep1, hstep2, ?_⟩
    rw [countPair_append_match, hzero]
  · intro h
    cases hc : s.clients.find? (fun c => c.id == cid) with
    | none =>
      unfold create_case_assignment
      rw [hc]
    | some c1 =>
      cases h with
      | inl hl => rw [hc] at hl; cases hl
      | inr hr =>
        have hu : s.users.find? (fun u => u.id == uid) = none := by
          revert hr
          cases s.users.find? (fun u => u.id == uid) <;> simp
        unfold create_case_assignment
        rw [hc, hu]
  · intro hle
    unfold create_case_assignment
    cases hc : s.clients.find? (fun c => c.id == cid) with
    | none => exact hle
    | some c1 =>
      cases hu : s.users.find? (fun u => u.id == uid) with
      | none => exact hle
      | some u1 =>
        cases hany : s.cases.any
            (fun cc => cc.client_id == cid && cc.user_id == uid) with
        | true => simpa using hle
        | false =>
          have hzero : countPair s.cases cid uid = 0 :=
            (countPair_zero_iff_any_false s.cases cid uid).mpr hany
          simp only [if_false, Bool.false_eq_true]
          rw [countPair_append_match, hzero]

/-- Witness for C6: the double call on the fixture state with client 1 and
user 1, a NotFound call for the missing client id 2, and invariant
preservation, all at concrete inputs. -/
theorem C6_case_assignment_conflict_witness :
    (∃ cc s1 s2,
       create_case_assignment s0 1 1 = (s1, .ok cc) ∧
       create_case_assignment s1 1 1 = (s2, .error .conflict) ∧
       countPair s2.cases 1 1 = 1) ∧
    create_case_assignment s0 2 1 = (s0, .error .notFound) ∧
    countPair ((create_case_assignment s0 1 1).1).cases 1 1 ≤ 1 :=
  ⟨(C6_case_assignment_conflict s0 1 1).1 (by decide) (by decide) (by decide),
   (C6_case_assignment_conflict s0 2 1).2.1 (by decide),
   (C6_case_assignment_conflict s0 1 1).2.2 (by decide)⟩

/-- Claim C8: deleting an existing client succeeds, removes every ClientCase
row referencing that id, and a subsequent get_client_services on that id
fails with NotFound. -/
theorem C8_delete_cascade (s : DBState) (cid : Nat)
    (hex : (s.clients.find? (fun c => c.id == cid)).isSome = true) :
    ∃ s1, delete_client s cid = (s1, .ok ()) ∧
      (∀ cc ∈ s1.cases, cc.client_id ≠ cid) ∧
      get_client_services s1 cid = .error .notFound := by
  obtain ⟨c1, hc1⟩ := Option.isSome_iff_exists.mp hex
  have hdel : delete_client s cid =
      ({ s with clients := s.clients.filter (fun c => c.id != cid),
                cases := s.cases.filter (fun cc => cc.client_id != cid) },
       .ok ()) := by
    unfold delete_client
    rw [hc1]
  refine ⟨_, hdel, ?_, ?_⟩
  · intro cc hcc
    have hp := List.of_mem_filter hcc
    simpa using hp
  · unfold get_client_services
    have hnone : (s.clients.filter (fun c => c.id != cid)).find?
        (fun c => c.id == cid) = none := by
      rw [List.find?_eq_none]
      intro x hx
      have hp := List.of_mem_filter hx
      simpa using hp
    rw [hnone]

/-- Witness for C8: deleting fixture client 1 from the state that holds a
case row for it. -/
theorem C8_delete_cascade_witness :
    ∃ s1, delete_client s1c 1 = (s1, .ok ()) ∧
      (∀ cc ∈ s1.cases, cc.client_id ≠ 1) ∧
      get_client_services s1 1 = .error .notFound :=
  C8_delete_cascade s1c 1 (by decide)

theorem rateAtLeast_iff (m : Int) (o : Option Int) :
    rateAtLeast m o = true ↔ ∃ r, o = some r ∧ m ≤ r := by
  cases o <;> simp [rateAtLeast]

/-- Claim C10: a GET /clients/search/success-rate request from an
authenticated admin that omits min_rate runs the search with min_rate = 70
and returns exactly the clients having at least one case row whose
success_rate is present and at least 70. -/
theorem C10_success_rate_default (s : DBState) (now : Nat)
    (token : Option Token) (u : User)
    (hadmin : resolve_admin s.users now token = .ok u) :
    ∃ res, handle_get_clients_by_success_rate s now token none = .ok res ∧
      ∀ c, c ∈ res ↔ c ∈ s.clients ∧
        ∃ cc, cc ∈ s.cases ∧ cc.client_id = c.id ∧
          ∃ r, cc.success_rate = some r ∧ 70 ≤ r := by
  refine ⟨get_clients_by_success_rate s 70, ?_, ?_⟩
  · unfold handle_get_clients_by_success_rate
    rw [hadmin]
    norm_num
  · intro c
    unfold get_clients_by_success_rate
    rw [List.mem_filter, List.any_eq_true]
    simp only [Bool.and_eq_true, beq_iff_eq, rateAtLeast_iff]

/-- Witness for C10: the fixture admin token over the state with one case at
success_rate 80. -/
theorem C10_success_rate_default_witness :
    ∃ res, handle_get_clients_by_success_rate s1c 100 (some tokAlice) none = .ok res ∧
      ∀ c, c ∈ res ↔ c ∈ s1c.clients ∧
        ∃ cc, cc ∈ s1c.cases ∧ cc.client_id = c.id ∧
          ∃ r, cc.success_rate = some r ∧ 70 ≤ r :=
  C10_success_rate_default s1c 100 (some tokAlice) alice (by decide)

theorem matchEq_iff {α : Type} [BEq α] [LawfulBEq α] (crit field : Option α) :
    matchEq crit field = true ↔ ∀ v, crit = some v → field = some v := by
  cases crit <;> simp [matchEq]

theorem matchGe_iff (crit field : Option Int) :
    matchGe crit field = true ↔
    ∀ v, crit = some v → ∃ a, field = some a ∧ v ≤ a := by
  cases crit <;> cases field <;> simp [matchGe]

/-- The per-field reading of the spec's sparse-criteria sentence: each
supplied criterion constrains its client column (equality, or the `age_min`
lower bound on `age`), and absent criteria impose nothing. -/
def SatisfiesSupplied (cr : ClientSearchCriteria) (c : Client) : Prop :=
  (∀ v, cr.employment_status = some v → c.currently_employed = some v) ∧
  (∀ v, cr.education_level = some v → c.level_of_schooling = some v) ∧
  (∀ v, cr.age_min = some v → ∃ a, c.age = some a ∧ v ≤ a) ∧
  (∀ v, cr.gender = some v → c.gender = some v) ∧
  (∀ v, cr.work_experience = some v → c.work_experience = some v) ∧
  (∀ v, cr.canada_workex = some v → c.canada_workex = some v) ∧
  (∀ v, cr.dep_num = some v → c.dep_num = some v) ∧
  (∀ v, cr.canada_born = some v → c.canada_born = some v) ∧
  (∀ v, cr.citizen_status = some v → c.citizen_status = some v) ∧
  (∀ v, cr.fluent_english = some v → c.fluent_english = some v) ∧
  (∀ v, cr.reading_english_scale = some v →
     ∃ a, c.reading_english_scale = some a ∧ v ≤ a) ∧
  (∀ v, cr.speaking_english_scale = some v →
     ∃ a, c.speaking_english_scale = some a ∧ v ≤ a) ∧
  (∀ v, cr.writing_english_scale = some v →
     ∃ a, c.writing_english_scale = some a ∧ v ≤ a) ∧
  (∀ v, cr.numeracy_scale = some v →
     ∃ a, c.numeracy_scale = some a ∧ v ≤ a) ∧
  (∀ v, cr.computer_scale = some v →
     ∃ a, c.computer_scale = some a ∧ v ≤ a) ∧
  (∀ v, cr.transportation_bool = some v → c.transportation_bool = some v) ∧
  (∀ v, cr.caregiver_bool = some v → c.caregiver_bool = some v) ∧
  (∀ v, cr.housing = some v → c.housing = some v) ∧
  (∀ v, cr.income_source = some v → c.income_source = some v) ∧
  (∀ v, cr.felony_bool = some v → c.felony_bool = some v) ∧
  (∀ v, cr.attending_school = some v → c.attending_school = some v) ∧
  (∀ v, cr.substance_use = some v → c.substance_use = some v) ∧
  (∀ v, cr.time_unemployed = some v → c.time_unemployed = some v) ∧
  (∀ v, cr.need_mental_health_support_bool = some v →
     c.need_mental_health_support_bool = some v)

theorem matchesCriteria_iff (cr : ClientSearchCriteria) (c : Client) :
    matchesCriteria cr c = true ↔ SatisfiesSupplied cr c := by
  unfold matchesCriteria SatisfiesSupplied
  simp only [Bool.and_eq_true, matchEq_iff, matchGe_iff, and_assoc]

/-- Claim C7 (counterexample): the criteria model does not accept subsets of
the Client model's fields — `age`, `level_of_schooling` and
`currently_employed` are Client columns with no criteria field of that
name, while `employment_status`, `education_level` and `age_min` are
criteria fields that are not Client columns. -/
theorem C7_criteria_fields_counterexample :
    "age" ∈ clientFieldNames ∧ "age" ∉ clientSearchCriteriaFieldNames ∧
    "currently_employed" ∈ clientFieldNames ∧
    "currently_employed" ∉ clientSearchCriteriaFieldNames ∧
    "employment_status" ∈ clientSearchCriteriaFieldNames ∧
    "employment_status" ∉ clientFieldNames := by
  decide

/-- Claim C7 (amended): the criteria search accepts any subset of the fixed
`ClientSearchCriteria` field set; a client is returned exactly when it is
stored and satisfies every explicitly supplied constraint — a lower-bound
threshold for `age_min` and the five scale fields, equality on the matching
column for every other field — and absent fields impose no constraint (an
all-absent criteria object returns every client). -/
theorem C7_sparse_criteria (s : DBState) :
    get_clients_by_criteria s emptyCriteria = s.clients ∧
    ∀ cr c, c ∈ get_clients_by_criteria s cr ↔
      c ∈ s.clients ∧ SatisfiesSupplied cr c := by
  constructor
  · unfold get_clients_by_criteria
    rw [List.filter_eq_self]
    intro a _
    rfl
  · intro cr c
    unfold get_clients_by_criteria
    rw [List.mem_filter, matchesCriteria_iff]

end CommonAssessmentTool
